import Mathlib

/-!
Verification development for the speech-evaluation application (src/app.py).

The application is a single-file Streamlit program.  The embedding below
translates its pure logic into Lean: JSON payloads become an inductive `Json`
type, the external world (filesystem outcomes, the speech recognizer, the
HTTP reply of the judging provider) is passed in explicitly as data, and the
Streamlit session history becomes an explicit `List HistoryEntry` threaded
through a step function.
-/

/-- JSON values, as produced by Python `json.loads`.  Objects are modelled as
association lists with distinct keys (Python dicts); numeric literals are
modelled as integers, which is all the rubric scores need. -/
inductive Json where
  | null
  | bool (b : Bool)
  | num (n : Int)
  | str (s : String)
  | arr (elems : List Json)
  | obj (fields : List (String × Json))

/-- Models Python `dict.get(key)`: the value at `key` if present. -/
def dictGet? (kvs : List (String × Json)) (key : String) : Option Json :=
  (kvs.find? (fun p => p.1 == key)).map (fun p => p.2)

/-- Models Python `dict.get(key, dflt)`: the value at `key`, or `dflt` when
the key is absent. -/
def dictGetD (kvs : List (String × Json)) (key : String) (dflt : Json) : Json :=
  (dictGet? kvs key).getD dflt

/-- The API-key literal hardcoded at src/app.py line 134 as the default of
`os.environ.get`. -/
def default_api_key_literal : String :=
  "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"

/-- `MODEL_OPTION` (src/app.py line 135). -/
def MODEL_OPTION : String := "llama3-8b-8192"

/-- `TEMPERATURE` (src/app.py line 136). -/
def TEMPERATURE : ℚ := 0.5

/-- Models the module-level resolution of `GROQ_API_KEY`
(src/app.py lines 133-144): the environment variable if set (even if empty),
otherwise the hardcoded literal; then overridden by a non-empty
`config.GROQ_API_KEY` when the config module is importable.
`env` is `os.environ.get("GROQ_API_KEY")`; `config` is the config module's
attribute when the import succeeds and the attribute exists. -/
def resolve_api_key (env config : Option String) : String :=
  let key := env.getD default_api_key_literal
  match config with
  | some c => if c = "" then key else c
  | none => key

/-- The built-in default reading passage (src/app.py lines 154-157, a Python
triple-quoted literal, newlines and indentation included). -/
def default_reading_text : String :=
  "The rapid advancement of artificial intelligence has brought significant changes \n            to various industries. While some fear job displacement, others believe AI will create new \n            opportunities and enhance human capabilities. Researchers continue to debate the long-term \n            implications of these technologies on society, economy, and human cognition."

/-- Models `load_reading_texts` (src/app.py lines 147-158).  The argument is
the outcome of opening and parsing `reading_texts.json`: `none` when the file
is missing or not valid JSON (`FileNotFoundError` / `JSONDecodeError`, both
caught), `some kvs` when it parses to an object of passage strings.  On
failure the built-in default dictionary is returned. -/
def load_reading_texts (file : Option (List (String × String))) : List (String × String) :=
  match file with
  | some kvs => kvs
  | none => [("default", default_reading_text)]

/-! ## TranscriptionAdapter: `transcribe_audio` (src/app.py lines 15-60) -/

/-- Result dictionaries of `transcribe_audio`: `{"success": True, "text": t}`
or `{"success": False, "error": msg}`. -/
inductive TranscriptionResult where
  | ok (text : String)
  | err (msg : String)

/-- What the external recognizer does with the recorded clip. -/
inductive RecognitionOutcome where
  | recognized (text : String)
  | unknownValue
  | requestError (msg : String)
  | processingError (msg : String)

/-- The external-world behaviour one call of `transcribe_audio` meets:
`timestamp` names the transient file, `setupFails` is a failure creating the
temp directory or path before the file is written (the outer `except`),
`recognition` is the recognizer's outcome, and `removeFails` is `os.remove`
raising inside the `finally` block (suppressed by `except Exception: pass`). -/
structure TranscribeEnv where
  timestamp : Nat
  setupFails : Bool
  recognition : RecognitionOutcome
  removeFails : Bool

/-- Path of the transient file (src/app.py lines 24-26). -/
def temp_filepath (timestamp : Nat) : String :=
  "temp/recording_" ++ toString timestamp ++ ".wav"

/-- Models `transcribe_audio` (src/app.py lines 15-60) together with its
filesystem effect.  `fs` is the set of files present, as a list of paths; the
returned list is the files present when the function returns.  The clip is
written to `temp_filepath`, recognition runs, and the `finally` block removes
the file — unless the removal itself raises, in which case the exception is
swallowed (line 56-57) and the file stays behind. -/
def transcribe_audio (env : TranscribeEnv) (fs : List String) :
    TranscriptionResult × List String :=
  if env.setupFails then
    (.err "Setup error", fs)
  else
    let filepath := temp_filepath env.timestamp
    let fs1 := filepath :: fs
    let result : TranscriptionResult :=
      match env.recognition with
      | .recognized t => .ok t
      | .unknownValue => .err "Could not understand the audio"
      | .requestError m => .err ("Could not request results; " ++ m)
      | .processingError m => .err ("Error processing audio: " ++ m)
    let fs2 := if env.removeFails then fs1 else fs1.erase filepath
    (result, fs2)

/-! ## EvaluationAdapter: `evaluate_with_groq` (src/app.py lines 182-284) -/

/-- The system prompt selected from the evaluation type (src/app.py
lines 189-236), kept structural: `speakingRubric` is the fixed free-form
rubric, `readingRubric` is the comparison rubric whose f-string embeds the
reference text and the user's reading. -/
inductive SystemPrompt where
  | speakingRubric
  | readingRubric (original_text : String) (user_reading : String)

/-- Python `f"{x}"` on an optional string: `None` renders as "None". -/
def pyStrOpt : Option String → String
  | some s => s
  | none => "None"

/-- The request payload built at src/app.py lines 242-250. -/
structure Payload where
  system : SystemPrompt
  user_content : String
  model : String
  temperature : ℚ
  response_format_json : Bool

/-- Outcome of the pre-request part of `evaluate_with_groq`: either an early
failure return, or an HTTP request issued with the given payload. -/
inductive EvalStep where
  | failed (error : String)
  | request (payload : Payload)

def api_key_missing_msg : String :=
  "Groq API key is not configured. Please set the GROQ_API_KEY environment variable."

/-- Error message of the `(json.JSONDecodeError, KeyError)` handler at
src/app.py line 272 (the appended `str(e)` detail is elided). -/
def parse_error_msg : String := "Error parsing API response"

/-- Error message of the non-200 branch at src/app.py lines 273-279
(the status/detail text is elided). -/
def http_error_msg : String := "Error from Groq API"

/-- Error message of the `requests.exceptions.RequestException` handler at
src/app.py line 282 (the `str(e)` detail is elided). -/
def network_error_msg : String := "Network error"

/-- The part of `evaluate_with_groq` before `requests.post`
(src/app.py lines 184-250): the key check, the evaluation-type dispatch with
its early returns, and the payload construction. -/
def request_stage (apiKey text evaluation_type : String)
    (reference_text : Option String) : EvalStep :=
  if apiKey = "" then
    .failed api_key_missing_msg
  else if evaluation_type = "speaking" then
    .request ⟨.speakingRubric, text, MODEL_OPTION, TEMPERATURE, true⟩
  else if evaluation_type = "reading" then
    .request ⟨.readingRubric (pyStrOpt reference_text) text, text,
      MODEL_OPTION, TEMPERATURE, true⟩
  else
    .failed ("Unknown evaluation type: " ++ evaluation_type)

/-- What the provider's HTTP reply looks like after the two parse layers of
src/app.py lines 268-269: `bodyNotJson` when `response.json()` raises,
`missingContentPath` when `["choices"][0]["message"]["content"]` raises
`KeyError`, `contentNotJson` when `json.loads` on the content raises, and
`contentJson payload` when the content parses. -/
inductive ReplyBody where
  | bodyNotJson
  | missingContentPath
  | contentNotJson
  | contentJson (payload : Json)

/-- The provider's HTTP reply: status code plus body. -/
structure ProviderReply where
  status : Nat
  body : ReplyBody

/-- Result dictionaries of `evaluate_with_groq`:
`{"success": True, "evaluation": j}` or `{"success": False, "error": msg}`. -/
inductive EvalResult where
  | success (evaluation : Json)
  | failure (error : String)

/-- The part of `evaluate_with_groq` from `requests.post` on
(src/app.py lines 258-284).  `reply = none` models
`requests.exceptions.RequestException` (network failure / timeout).  On
status 200 the successfully parsed content is returned as-is (line 270);
any parse or path failure is the `parse_error_msg` failure (line 272); a
non-200 status is the `http_error_msg` failure (lines 273-279). -/
def response_stage (reply : Option ProviderReply) : EvalResult :=
  match reply with
  | none => .failure network_error_msg
  | some r =>
    if r.status = 200 then
      match r.body with
      | .contentJson j => .success j
      | _ => .failure parse_error_msg
    else
      .failure http_error_msg

/-- Models `evaluate_with_groq` (src/app.py lines 182-284): the pre-request
stage, then — only if a request was actually issued — the reply handling. -/
def evaluate_with_groq (apiKey text evaluation_type : String)
    (reference_text : Option String) (reply : Option ProviderReply) : EvalResult :=
  match request_stage apiKey text evaluation_type reference_text with
  | .failed e => .failure e
  | .request _ => response_stage reply

/-! ## Display: `display_evaluation_results` (src/app.py lines 286-368) -/

/-- The speaking-mode feedback dimensions read at src/app.py lines 311-338. -/
def speaking_dimensions : List String :=
  ["pronunciation", "grammar", "vocabulary", "fluency", "coherence"]

/-- The reading-mode feedback dimensions read at src/app.py lines 339-362. -/
def reading_dimensions : List String :=
  ["accuracy", "pronunciation", "fluency", "overall"]

/-- Which dimensions `display_evaluation_results` reads from the report:
the layout branches on `"grammar" in eval_data` (src/app.py line 311). -/
def displayed_dimensions (kvs : List (String × Json)) : List String :=
  if (dictGet? kvs "grammar").isSome then speaking_dimensions else reading_dimensions

/-- The text shown for one feedback dimension:
`eval_data.get(name, 'N/A')` (src/app.py lines 316-360). -/
def display_dimension (kvs : List (String × Json)) (name : String) : Json :=
  dictGetD kvs name (.str "N/A")

/-- The score shown in the score box: `eval_data.get('score', 'N/A')`
(src/app.py line 297). -/
def display_score (kvs : List (String × Json)) : Json :=
  dictGetD kvs "score" (.str "N/A")

/-- The tips iterated over: `eval_data.get('improvement_tips', [])`
(src/app.py line 366). -/
def display_tips (kvs : List (String × Json)) : Json :=
  dictGetD kvs "improvement_tips" (.arr [])

/-! ## Pipeline: `speaking_test` / `reading_test`
(src/app.py lines 370-431 and 432-504) and the session history
(src/app.py lines 126-128, 403-409, 477-483) -/

/-- The two test tabs. -/
inductive TestMode where
  | speaking
  | reading

/-- The `evaluation_type` string each tab passes to `evaluate_with_groq`
(src/app.py lines 399 and 469-471). -/
def mode_type_string : TestMode → String
  | .speaking => "speaking"
  | .reading => "reading"

/-- The `type` string each tab stores in the history entry
(src/app.py lines 404 and 478). -/
def mode_label : TestMode → String
  | .speaking => "Speaking Test"
  | .reading => "Reading Test"

/-- The reference text each tab passes: the speaking tab passes none
(default argument, line 399); the reading tab passes
`load_reading_texts().get("default")` (src/app.py lines 439-440, 469-473). -/
def mode_reference (file : Option (List (String × String))) : TestMode → Option String
  | .speaking => none
  | .reading =>
    ((load_reading_texts file).find? (fun p => p.1 == "default")).map (fun p => p.2)

/-- One entry of `st.session_state.history`
(src/app.py lines 403-409 and 477-483). -/
structure HistoryEntry where
  type : String
  date : String
  transcript : String
  score : Json
  evaluation : Json

/-- What one submission brings from the outside world: which tab, the
timestamp string, the transcription outcome, and the judging provider's
reply. -/
structure SubmissionInput where
  mode : TestMode
  date : String
  transcription : TranscriptionResult
  reply : Option ProviderReply

/-- How one submission ends.  `scriptError` is the case of a successful
evaluation whose payload is not a JSON object: `.get("score", "N/A")` then
raises `AttributeError`, the script run aborts, and nothing is appended. -/
inductive PipelineOutcome where
  | completed (transcript : String) (evaluation : Json)
  | failedTranscription (error : String)
  | failedEvaluation (error : String)
  | scriptError

/-- One submission through a test tab (src/app.py lines 389-416 / 459-490):
on a successful transcription the transcript is evaluated; on a successful
evaluation an entry is appended to the history with
`score = evaluation.get("score", "N/A")` and the evaluation stored as-is;
on any failure the history is returned unchanged. -/
def submission_run (apiKey : String) (file : Option (List (String × String)))
    (history : List HistoryEntry) (inp : SubmissionInput) :
    PipelineOutcome × List HistoryEntry :=
  match inp.transcription with
  | .err e => (.failedTranscription e, history)
  | .ok t =>
    match evaluate_with_groq apiKey t (mode_type_string inp.mode)
        (mode_reference file inp.mode) inp.reply with
    | .failure e => (.failedEvaluation e, history)
    | .success ev =>
      match ev with
      | .obj kvs =>
        (.completed t ev,
          history ++ [⟨mode_label inp.mode, inp.date, t,
            dictGetD kvs "score" (.str "N/A"), ev⟩])
      | _ => (.scriptError, history)

/-- The history after one submission. -/
def submission_step (apiKey : String) (file : Option (List (String × String)))
    (history : List HistoryEntry) (inp : SubmissionInput) : List HistoryEntry :=
  (submission_run apiKey file history inp).2

/-- A session: submissions processed one after the other against the shared
history list (src/app.py lines 126-128: the history starts empty and is only
ever appended to). -/
def run_session (apiKey : String) (file : Option (List (String × String)))
    (inputs : List SubmissionInput) (history : List HistoryEntry) : List HistoryEntry :=
  inputs.foldl (submission_step apiKey file) history

/-- A submission whose pipeline run reaches `completed`. -/
def successfulInput (apiKey : String) (file : Option (List (String × String)))
    (inp : SubmissionInput) : Bool :=
  match (submission_run apiKey file [] inp).1 with
  | .completed _ _ => true
  | _ => false

/-- The history entry a successful submission appends (a placeholder entry
for unsuccessful ones, which never append). -/
def entryOf (apiKey : String) (file : Option (List (String × String)))
    (inp : SubmissionInput) : HistoryEntry :=
  match inp.transcription with
  | .err _ => ⟨"", "", "", .null, .null⟩
  | .ok t =>
    match evaluate_with_groq apiKey t (mode_type_string inp.mode)
        (mode_reference file inp.mode) inp.reply with
    | .failure _ => ⟨"", "", "", .null, .null⟩
    | .success ev =>
      match ev with
      | .obj kvs =>
        ⟨mode_label inp.mode, inp.date, t, dictGetD kvs "score" (.str "N/A"), ev⟩
      | _ => ⟨"", "", "", .null, .null⟩

/-! ## Startup: `main` (src/app.py lines 523-593) -/

/-- How `main` starts up. -/
inductive StartupOutcome where
  | stoppedMissingKey
  | stoppedConnectionFailed
  | rendersTests

/-- Models `main` up to the tab rendering (src/app.py lines 533-585): an
empty `GROQ_API_KEY` stops the script with the missing-key error before any
tab is rendered (lines 534-559); a failed connection check stops it next
(lines 562-575); otherwise the test tabs are rendered. -/
def main_startup (apiKey : String) (connectionOk : Bool) : StartupOutcome :=
  if apiKey = "" then .stoppedMissingKey
  else if connectionOk then .rendersTests
  else .stoppedConnectionFailed

/-! ## Helper lemmas -/

/-- With an empty API key `evaluate_with_groq` fails before doing anything
else (src/app.py lines 184-186). -/
theorem evaluate_empty_key (t ty : String) (ref : Option String)
    (reply : Option ProviderReply) :
    evaluate_with_groq "" t ty ref reply = .failure api_key_missing_msg := by
  simp [evaluate_with_groq, request_stage]

/-- With an empty API key a submission never changes the history. -/
theorem submission_step_empty_key (file : Option (List (String × String)))
    (h : List HistoryEntry) (inp : SubmissionInput) :
    submission_step "" file h inp = h := by
  cases ht : inp.transcription with
  | err e => simp [submission_step, submission_run, ht]
  | ok t => simp [submission_step, submission_run, ht, evaluate_empty_key]

/-- With an empty API key a whole session never changes the history. -/
theorem run_session_empty_key (file : Option (List (String × String))) :
    ∀ (inputs : List SubmissionInput) (h : List HistoryEntry),
      run_session "" file inputs h = h
  | [], _ => rfl
  | inp :: rest, h => by
    unfold run_session
    rw [List.foldl_cons, submission_step_empty_key]
    exact run_session_empty_key file rest h

/-- A submission that completes appends exactly its entry at the tail. -/
theorem submission_step_successful (k : String) (file : Option (List (String × String)))
    (inp : SubmissionInput) (hs : successfulInput k file inp = true)
    (h : List HistoryEntry) :
    submission_step k file h inp = h ++ [entryOf k file inp] := by
  cases ht : inp.transcription with
  | err e =>
    exfalso
    simp [successfulInput, submission_run, ht] at hs
  | ok t =>
    cases he : evaluate_with_groq k t (mode_type_string inp.mode)
        (mode_reference file inp.mode) inp.reply with
    | failure e =>
      exfalso
      simp [successfulInput, submission_run, ht, he] at hs
    | success ev =>
      cases ev with
      | obj kvs => simp [submission_step, submission_run, entryOf, ht, he]
      | null =>
        exfalso
        unfold successfulInput submission_run at hs
        rw [ht] at hs
        simp only [he] at hs
        simp at hs
      | bool b => exfalso; simp [successfulInput, submission_run, ht, he] at hs
      | num n => exfalso; simp [successfulInput, submission_run, ht, he] at hs
      | str s => exfalso; simp [successfulInput, submission_run, ht, he] at hs
      | arr l => exfalso; simp [successfulInput, submission_run, ht, he] at hs

/-- A session of completing submissions appends exactly their entries, in
submission order. -/
theorem run_session_map (k : String) (file : Option (List (String × String))) :
    ∀ (inputs : List SubmissionInput) (h : List HistoryEntry),
      (∀ inp ∈ inputs, successfulInput k file inp = true) →
      run_session k file inputs h = h ++ inputs.map (entryOf k file)
  | [], h, _ => by simp [run_session]
  | inp :: rest, h, hall => by
    unfold run_session
    rw [List.foldl_cons,
      submission_step_successful k file inp (hall inp (by simp)) h]
    have hrest := run_session_map k file rest (h ++ [entryOf k file inp])
      (fun i hi => hall i (by simp [hi]))
    unfold run_session at hrest
    rw [hrest]
    simp

/-! ## The claims -/

/-- C1 counterexample: a reply whose body is valid JSON but whose parsed
object has no `score` key makes `evaluate_with_groq` return a success result
carrying that object unchanged — not a `SchemaViolation` failure.  The code
at src/app.py lines 265-272 performs no schema check at all. -/
theorem C1_counterexample :
    evaluate_with_groq "k" "hello" "speaking" none
      (some ⟨200, .contentJson (.obj [("pronunciation", .str "clear")])⟩) =
      .success (.obj [("pronunciation", .str "clear")]) ∧
    dictGet? [("pronunciation", Json.str "clear")] "score" = none :=
  ⟨rfl, rfl⟩

/-- C1 (amended): for every reply whose body is valid JSON but whose parsed
object lacks the `score` field, `evaluate_with_groq` returns success with
the payload unchanged; the missing score is only replaced by the "N/A"
marker where the score is read (`.get("score", "N/A")`). -/
theorem C1_missing_score_still_success (k t : String) (kvs : List (String × Json))
    (hk : k ≠ "") (hs : dictGet? kvs "score" = none) :
    evaluate_with_groq k t "speaking" none (some ⟨200, .contentJson (.obj kvs)⟩) =
      .success (.obj kvs) ∧
    dictGetD kvs "score" (.str "N/A") = .str "N/A" := by
  constructor
  · unfold evaluate_with_groq request_stage response_stage
    rw [if_neg hk]
    rfl
  · rw [dictGetD, hs]
    rfl

/-- C1 witness: the amended theorem at a concrete score-less reply. -/
theorem C1_witness :
    evaluate_with_groq "k" "hello" "speaking" none
      (some ⟨200, .contentJson (.obj [("grammar", .str "good")])⟩) =
      .success (.obj [("grammar", .str "good")]) ∧
    dictGetD [("grammar", Json.str "good")] "score" (.str "N/A") = .str "N/A" :=
  C1_missing_score_still_success "k" "hello" [("grammar", .str "good")] (by decide) rfl

/-- C2 counterexample: a successful `evaluate_with_groq` report can lack an
optional dimension field entirely — the reply object containing only
`score` yields a report with no `pronunciation` key, so the field is absent
rather than present with a "not available" marker. -/
theorem C2_counterexample :
    evaluate_with_groq "k" "hello" "speaking" none
      (some ⟨200, .contentJson (.obj [("score", .num 8)])⟩) =
      .success (.obj [("score", .num 8)]) ∧
    dictGet? [("score", Json.num 8)] "pronunciation" = none :=
  ⟨rfl, rfl⟩

/-- C2 (amended): missing optional fields are absent from the report object
itself; the "not available" marker is re-derived at each read site instead:
any displayed dimension missing from the report renders as "N/A", a missing
score renders as "N/A", and missing improvement tips render as the empty
list (src/app.py lines 297, 316-360, 366). -/
theorem C2_display_markers (kvs : List (String × Json)) (name : String)
    (_hmem : name ∈ displayed_dimensions kvs) :
    (dictGet? kvs name = none → display_dimension kvs name = .str "N/A") ∧
    (dictGet? kvs "score" = none → display_score kvs = .str "N/A") ∧
    (dictGet? kvs "improvement_tips" = none → display_tips kvs = .arr []) := by
  refine ⟨fun h => ?_, fun h => ?_, fun h => ?_⟩ <;>
    simp [display_dimension, display_score, display_tips, dictGetD, h]

/-- C2 witness: the amended theorem at a concrete report missing the
`pronunciation` field. -/
theorem C2_witness :
    display_dimension [("grammar", Json.str "good")] "pronunciation" = .str "N/A" :=
  (C2_display_markers [("grammar", Json.str "good")] "pronunciation" (by decide)).1 rfl

/-- C3: when the credential resolution of src/app.py lines 133-144 produces
no key, `main` stops with the missing-key error whatever the connection
check would say, every call of `evaluate_with_groq` fails with the
not-configured error, and no sequence of submissions can move the history
away from the empty list. -/
theorem C3_no_credential_refusal (env config : Option String)
    (h0 : resolve_api_key env config = "") :
    (∀ connectionOk, main_startup (resolve_api_key env config) connectionOk =
      .stoppedMissingKey) ∧
    (∀ t ty ref reply, evaluate_with_groq (resolve_api_key env config) t ty ref reply =
      .failure api_key_missing_msg) ∧
    (∀ file inputs, run_session (resolve_api_key env config) file inputs [] =
      ([] : List HistoryEntry)) := by
  rw [h0]
  exact ⟨fun c => rfl, fun t ty ref reply => evaluate_empty_key t ty ref reply,
    fun file inputs => run_session_empty_key file inputs []⟩

/-- C3 witness: the theorem at the concrete state where the environment
variable is set to the empty string and no config module exists. -/
theorem C3_witness :
    resolve_api_key (some "") none = "" ∧
    main_startup (resolve_api_key (some "") none) true = .stoppedMissingKey ∧
    evaluate_with_groq (resolve_api_key (some "") none) "hello" "speaking" none none =
      .failure api_key_missing_msg ∧
    run_session (resolve_api_key (some "") none) none
      [⟨.speaking, "2026-10-12", .ok "hello", none⟩] [] = [] := by
  have h := C3_no_credential_refusal (some "") none rfl
  exact ⟨rfl, h.1 true, h.2.1 "hello" "speaking" none none, h.2.2 none _⟩

/-- C4: when the reading-text source supplies nothing (no resolvable
`reading_texts.json`), the reading tab falls back to the non-empty built-in
default passage, and `evaluate_with_groq` in reading mode proceeds to issue
the provider request with the comparison rubric over that default text —
it does not fail with any not-configured error, and well-formed replies
evaluate to success. -/
theorem C4_reading_default_fallback (k t : String) (hk : k ≠ "") :
    mode_reference none TestMode.reading = some default_reading_text ∧
    default_reading_text ≠ "" ∧
    request_stage k t "reading" (mode_reference none TestMode.reading) =
      .request ⟨.readingRubric default_reading_text t, t, MODEL_OPTION, TEMPERATURE, true⟩ ∧
    (∀ kvs, evaluate_with_groq k t "reading" (mode_reference none TestMode.reading)
      (some ⟨200, .contentJson (.obj kvs)⟩) = .success (.obj kvs)) := by
  refine ⟨rfl, by decide, ?_, ?_⟩
  · unfold request_stage
    rw [if_neg hk]
    rfl
  · intro kvs
    unfold evaluate_with_groq request_stage response_stage
    rw [if_neg hk]
    rfl

/-- C4 witness: the theorem at a concrete key and transcript. -/
theorem C4_witness :
    mode_reference none TestMode.reading = some default_reading_text ∧
    default_reading_text ≠ "" ∧
    request_stage "k" "hello" "reading" (mode_reference none TestMode.reading) =
      .request ⟨.readingRubric default_reading_text "hello", "hello",
        MODEL_OPTION, TEMPERATURE, true⟩ :=
  have h := C4_reading_default_fallback "k" "hello" (by decide)
  ⟨h.1, h.2.1, h.2.2.1⟩

/-- C5: a reply whose body is not valid JSON, or lacks the envelope path,
or whose envelope content is not valid JSON, makes `evaluate_with_groq`
return the parse failure; the submission then ends in the failed-evaluation
outcome and the history is exactly what it was before. -/
theorem C5_parse_failure_no_mutation (k date t : String)
    (file : Option (List (String × String))) (h : List HistoryEntry) (b : ReplyBody)
    (hk : k ≠ "")
    (hb : b = .bodyNotJson ∨ b = .missingContentPath ∨ b = .contentNotJson) :
    evaluate_with_groq k t "speaking" none (some ⟨200, b⟩) = .failure parse_error_msg ∧
    submission_run k file h ⟨.speaking, date, .ok t, some ⟨200, b⟩⟩ =
      (.failedEvaluation parse_error_msg, h) := by
  have he : evaluate_with_groq k t "speaking" none (some ⟨200, b⟩) =
      .failure parse_error_msg := by
    rcases hb with hb | hb | hb <;>
      (subst hb; unfold evaluate_with_groq request_stage response_stage;
        rw [if_neg hk]; rfl)
  exact ⟨he, by simp [submission_run, mode_type_string, mode_reference, he]⟩

/-- C5 witness: the theorem at a concrete invalid-body reply. -/
theorem C5_witness :
    evaluate_with_groq "k" "hello" "speaking" none (some ⟨200, .bodyNotJson⟩) =
      .failure parse_error_msg ∧
    submission_run "k" none [] ⟨.speaking, "2026-10-12", .ok "hello",
        some ⟨200, .bodyNotJson⟩⟩ =
      (.failedEvaluation parse_error_msg, []) :=
  C5_parse_failure_no_mutation "k" "2026-10-12" "hello" none [] .bodyNotJson
    (by decide) (Or.inl rfl)

/-- C6: starting from the empty history, a session of N completing
submissions leaves a history that is exactly the list of their entries in
submission order — length N, chronological, and each entry equal to what
its submission appended, untouched by the later ones. -/
theorem C6_history_append_only (k : String) (file : Option (List (String × String)))
    (inputs : List SubmissionInput)
    (hall : ∀ inp ∈ inputs, successfulInput k file inp = true) :
    run_session k file inputs [] = inputs.map (entryOf k file) ∧
    (run_session k file inputs []).length = inputs.length := by
  have h := run_session_map k file inputs [] hall
  simp only [List.nil_append] at h
  exact ⟨h, by rw [h]; simp⟩

/-- C6 witness: the theorem on a concrete two-submission session. -/
theorem C6_witness :
    run_session "k" none
      [⟨.speaking, "2026-10-12 10:00", .ok "I love traveling",
          some ⟨200, .contentJson (.obj [("score", .num 8)])⟩⟩,
        ⟨.reading, "2026-10-12 10:05", .ok "The rapid advancement",
          some ⟨200, .contentJson (.obj [("score", .num 7)])⟩⟩] [] =
      List.map (entryOf "k" none)
        [⟨.speaking, "2026-10-12 10:00", .ok "I love traveling",
            some ⟨200, .contentJson (.obj [("score", .num 8)])⟩⟩,
          ⟨.reading, "2026-10-12 10:05", .ok "The rapid advancement",
            some ⟨200, .contentJson (.obj [("score", .num 7)])⟩⟩] ∧
    (run_session "k" none
      [⟨.speaking, "2026-10-12 10:00", .ok "I love traveling",
          some ⟨200, .contentJson (.obj [("score", .num 8)])⟩⟩,
        ⟨.reading, "2026-10-12 10:05", .ok "The rapid advancement",
          some ⟨200, .contentJson (.obj [("score", .num 7)])⟩⟩] []).length = 2 :=
  C6_history_append_only "k" none
    [⟨.speaking, "2026-10-12 10:00", .ok "I love traveling",
        some ⟨200, .contentJson (.obj [("score", .num 8)])⟩⟩,
      ⟨.reading, "2026-10-12 10:05", .ok "The rapid advancement",
        some ⟨200, .contentJson (.obj [("score", .num 7)])⟩⟩] (by decide)

/-- C7: a 200 reply whose envelope content parses to a JSON object makes
`evaluate_with_groq` (in either supported mode) return success carrying
exactly that object — nothing added, dropped, clamped or re-validated
(src/app.py lines 269-270). -/
theorem C7_schema_roundtrip (k t ty : String) (ref : Option String)
    (kvs : List (String × Json)) (hk : k ≠ "")
    (hty : ty = "speaking" ∨ ty = "reading") :
    evaluate_with_groq k t ty ref (some ⟨200, .contentJson (.obj kvs)⟩) =
      .success (.obj kvs) := by
  rcases hty with h | h <;>
    (subst h; unfold evaluate_with_groq request_stage response_stage;
      rw [if_neg hk]; rfl)

/-- C7 witness: the theorem on the spec's example reply, whose score reads
back as 8. -/
theorem C7_witness :
    evaluate_with_groq "k" "I love traveling to Japan because of its culture" "speaking"
      none
      (some ⟨200, .contentJson (.obj [("score", .num 8), ("pronunciation", .str "clear"),
        ("grammar", .str "good"), ("vocabulary", .str "varied"),
        ("fluency", .str "smooth"), ("coherence", .str "logical"),
        ("improvement_tips", .arr [.str "slow down"])])⟩) =
      .success (.obj [("score", .num 8), ("pronunciation", .str "clear"),
        ("grammar", .str "good"), ("vocabulary", .str "varied"),
        ("fluency", .str "smooth"), ("coherence", .str "logical"),
        ("improvement_tips", .arr [.str "slow down"])]) ∧
    dictGet? [("score", Json.num 8), ("pronunciation", Json.str "clear"),
      ("grammar", Json.str "good"), ("vocabulary", Json.str "varied"),
      ("fluency", Json.str "smooth"), ("coherence", Json.str "logical"),
      ("improvement_tips", Json.arr [Json.str "slow down"])] "score" = some (.num 8) :=
  ⟨C7_schema_roundtrip "k" "I love traveling to Japan because of its culture" "speaking"
    none _ (by decide) (Or.inl rfl), rfl⟩

/-- C8 counterexample: when the `os.remove` in the `finally` block raises,
the exception is swallowed (src/app.py lines 53-57) and `transcribe_audio`
returns success while the transient file is still on disk. -/
theorem C8_counterexample :
    (transcribe_audio ⟨0, false, .recognized "hello", true⟩ []).1 = .ok "hello" ∧
    temp_filepath 0 ∈ (transcribe_audio ⟨0, false, .recognized "hello", true⟩ []).2 :=
  ⟨rfl, by decide⟩

/-- C8 (amended): removal of the transient file is attempted on every exit
path, and whenever the remove call itself does not fail the file is gone
before `transcribe_audio` returns — the filesystem is exactly as before on
every recognition outcome; only a failing removal, which the code
suppresses, lets the file persist. -/
theorem C8_cleanup_when_remove_succeeds (env : TranscribeEnv) (fs : List String)
    (hrm : env.removeFails = false) :
    (transcribe_audio env fs).2 = fs := by
  cases hsetup : env.setupFails with
  | true => simp [transcribe_audio, hsetup]
  | false => simp [transcribe_audio, hsetup, hrm, List.erase_cons_head]

/-- C8 witness: the amended theorem on a concrete run whose recognition
fails and whose removal succeeds. -/
theorem C8_witness :
    (transcribe_audio ⟨0, false, .unknownValue, false⟩ ["keep.txt"]).2 = ["keep.txt"] :=
  C8_cleanup_when_remove_succeeds ⟨0, false, .unknownValue, false⟩ ["keep.txt"] rfl

/-- C9: for every evaluation type other than "speaking" and "reading",
`evaluate_with_groq` returns early with a failure naming the unknown type
(src/app.py lines 237-239), and no request payload is ever produced — the
judging provider is not contacted. -/
theorem C9_unknown_type (k t ty : String) (ref : Option String) (hk : k ≠ "")
    (h1 : ty ≠ "speaking") (h2 : ty ≠ "reading") :
    (∀ p, request_stage k t ty ref ≠ .request p) ∧
    (∀ reply, evaluate_with_groq k t ty ref reply =
      .failure ("Unknown evaluation type: " ++ ty)) := by
  have hr : request_stage k t ty ref = .failed ("Unknown evaluation type: " ++ ty) := by
    unfold request_stage
    rw [if_neg hk, if_neg h1, if_neg h2]
  exact ⟨fun p hp => by rw [hr] at hp; simp at hp,
    fun reply => by unfold evaluate_with_groq; rw [hr]⟩

/-- C9 witness: the theorem at the concrete unknown type "writing". -/
theorem C9_witness :
    evaluate_with_groq "k" "hello" "writing" none none =
      .failure ("Unknown evaluation type: " ++ "writing") :=
  (C9_unknown_type "k" "hello" "writing" none (by decide) (by decide) (by decide)).2 none

/-- C10: a submission whose evaluation succeeds with an object lacking a
`score` key still appends a history entry; its `score` field is the literal
string "N/A" while the stored report is the score-less object itself
(src/app.py lines 403-409 and 477-483). -/
theorem C10_missing_score_entry (k : String) (file : Option (List (String × String)))
    (h : List HistoryEntry) (mode : TestMode) (date t : String)
    (reply : Option ProviderReply) (kvs : List (String × Json))
    (he : evaluate_with_groq k t (mode_type_string mode) (mode_reference file mode) reply =
      .success (.obj kvs))
    (hs : dictGet? kvs "score" = none) :
    submission_step k file h ⟨mode, date, .ok t, reply⟩ =
      h ++ [⟨mode_label mode, date, t, .str "N/A", .obj kvs⟩] := by
  simp [submission_step, submission_run, he, dictGetD, hs]

/-- C10 witness: the theorem at a concrete score-less successful report. -/
theorem C10_witness :
    submission_step "k" none []
      ⟨.speaking, "2026-10-12", .ok "hello",
        some ⟨200, .contentJson (.obj [("grammar", Json.str "good")])⟩⟩ =
      [⟨"Speaking Test", "2026-10-12", "hello", .str "N/A",
        .obj [("grammar", Json.str "good")]⟩] := by
  have h := C10_missing_score_entry "k" none [] .speaking "2026-10-12" "hello"
    (some ⟨200, .contentJson (.obj [("grammar", Json.str "good")])⟩)
    [("grammar", Json.str "good")] rfl rfl
  simpa using h
